import Mathlib

/-!
Verification of the VPSA cyclic-steady-state column simulator
(`04 CasADi 4-step PSA carbon capture/PSAloop_MTC.py`).

The Python code builds a finite-volume model of a packed adsorption bed,
integrates it through four process steps per cycle with an external CVODES
integrator, and iterates cycles to a cyclic steady state.  Below we give a
shallow embedding over the reals of the parts of the program the claims
are about: the dual-site Langmuir isotherm (`get_isotherm`,
`get_isotherm_numeric`), the smoothed boundary-condition selection in
`build_model`, the upwind face blends, the initial-state construction and
the per-cycle loop of `simulate_css`, and the (exception-based) error flow
of `simulate_step` and the `__main__` mesh sweep.  The external integrator
is abstracted as a function argument `advance`.
-/

noncomputable section

namespace VPSA

/-! ### Physical parameters (`VPSA_Simulator.setup_parameters`) -/

def R_gas : ℝ := 8.314

def P_scale : ℝ := 1e5

def q_sb0 : ℝ := 3.09

def b0_0 : ℝ := 8.65e-7

def dU_b0 : ℝ := -36641.21

def q_sd0 : ℝ := 2.54

def d0_0 : ℝ := 2.63e-8

def dU_d0 : ℝ := -35690.66

def q_sb1 : ℝ := 5.84

def b0_1 : ℝ := 2.50e-6

def dU_b1 : ℝ := -1.58e4

/-! ### Isotherm model (`get_isotherm`, `get_isotherm_numeric`) -/

/-- Temperature-dependent affinity `b0 = b0_0 * exp(-dU_b0 / (R_gas * T))`. -/
def iso_b0 (T : ℝ) : ℝ := b0_0 * Real.exp (-dU_b0 / (R_gas * T))

/-- Temperature-dependent affinity `d0 = d0_0 * exp(-dU_d0 / (R_gas * T))`. -/
def iso_d0 (T : ℝ) : ℝ := d0_0 * Real.exp (-dU_d0 / (R_gas * T))

/-- Temperature-dependent affinity `b1 = b0_1 * exp(-dU_b1 / (R_gas * T))`. -/
def iso_b1 (T : ℝ) : ℝ := b0_1 * Real.exp (-dU_b1 / (R_gas * T))

/-- Denominator `denom1 = 1 + b0*c0 + b1*c1` of the two-site term. -/
def iso_denom1 (c0 c1 T : ℝ) : ℝ := 1 + iso_b0 T * c0 + iso_b1 T * c1

/-- Denominator `denom2 = 1 + d0*c0` of the second CO2 site. -/
def iso_denom2 (c0 T : ℝ) : ℝ := 1 + iso_d0 T * c0

/-- `VPSA_Simulator.get_isotherm`: symbolic dual-site Langmuir loadings
`(q0, q1)` from total concentration, CO2 mole fraction and temperature. -/
def get_isotherm (c_total y_co2 T : ℝ) : ℝ × ℝ :=
  let c0 := c_total * y_co2
  let c1 := c_total * (1 - y_co2)
  (q_sb0 * iso_b0 T * c0 / iso_denom1 c0 c1 T
      + q_sd0 * iso_d0 T * c0 / iso_denom2 c0 T,
   q_sb1 * iso_b1 T * c1 / iso_denom1 c0 c1 T)

/-- `VPSA_Simulator.get_isotherm_numeric`: numeric variant taking pressure
and converting with the ideal gas law `c_total = P / (R_gas * T)`. -/
def get_isotherm_numeric (P y_co2 T : ℝ) : ℝ × ℝ :=
  let c_total := P / (R_gas * T)
  let c0 := c_total * y_co2
  let c1 := c_total * (1 - y_co2)
  (q_sb0 * iso_b0 T * c0 / iso_denom1 c0 c1 T
      + q_sd0 * iso_d0 T * c0 / iso_denom2 c0 T,
   q_sb1 * iso_b1 T * c1 / iso_denom1 c0 c1 T)

/-- The Arrhenius affinity form stated by the spec:
`b(T) = b0 * exp(-dU_b / (R * T))`. -/
def arrhenius (pre dU T : ℝ) : ℝ := pre * Real.exp (-dU / (R_gas * T))

/-- Dual-site Langmuir loadings written exactly as the spec states them,
with `c0 = c_total*y` and `c1 = c_total*(1-y)`.  Used to compare the code's
`get_isotherm` against the spec's formula. -/
def isothermSpec (c_total y T : ℝ) : ℝ × ℝ :=
  (q_sb0 * arrhenius b0_0 dU_b0 T * (c_total * y) /
      (1 + arrhenius b0_0 dU_b0 T * (c_total * y)
         + arrhenius b0_1 dU_b1 T * (c_total * (1 - y)))
    + q_sd0 * arrhenius d0_0 dU_d0 T * (c_total * y) /
      (1 + arrhenius d0_0 dU_d0 T * (c_total * y)),
   q_sb1 * arrhenius b0_1 dU_b1 T * (c_total * (1 - y)) /
      (1 + arrhenius b0_0 dU_b0 T * (c_total * y)
         + arrhenius b0_1 dU_b1 T * (c_total * (1 - y))))

/-! ### Smoothed boundary conditions (`VPSA_Robust.build_model`) -/

/-- Relaxation rate `lam = 5.0 / (duration + 1e-3)`. -/
def lam (duration : ℝ) : ℝ := 5.0 / (duration + 1e-3)

/-- Pressurization target `P_high - (P_high - P_low) * exp(-lam * t)`. -/
def P_bound_press (P_low P_high duration t : ℝ) : ℝ :=
  P_high - (P_high - P_low) * Real.exp (-lam duration * t)

/-- Blowdown target `P_low + (P_high - P_low) * exp(-lam * t)`. -/
def P_bound_blow (P_low P_high duration t : ℝ) : ℝ :=
  P_low + (P_high - P_low) * Real.exp (-lam duration * t)

/-- Evacuation vacuum level `P_vac = P_low * 0.5`. -/
def P_vac (P_low : ℝ) : ℝ := P_low * 0.5

/-- Evacuation target `P_vac + (P_low - P_vac) * exp(-lam * t)`. -/
def P_bound_evac (P_low duration t : ℝ) : ℝ :=
  P_vac P_low + (P_low - P_vac P_low) * Real.exp (-lam duration * t)

/-- The `ca.if_else` chain selecting the boundary pressure from the
continuous step-type code with thresholds 0.5, 1.5, 2.5. -/
def P_bound (step_type P_low P_high duration t : ℝ) : ℝ :=
  if step_type < 0.5 then P_bound_press P_low P_high duration t
  else if step_type < 1.5 then P_high
  else if step_type < 2.5 then P_bound_blow P_low P_high duration t
  else P_bound_evac P_low duration t

/-- The `ca.if_else` chain selecting the inlet face velocity `v_face[0]`,
given the already computed saturated inlet velocity `v_in`. -/
def v0_sel (step_type v_in : ℝ) : ℝ :=
  if step_type < 0.5 then v_in
  else if step_type < 1.5 then 1.0
  else if step_type < 2.5 then 0.0
  else v_in

/-- The `ca.if_else` chain selecting the outlet face velocity `v_face[N]`,
given the already computed saturated outlet velocity `v_out`. -/
def vN_sel (step_type v_out : ℝ) : ℝ :=
  if step_type < 0.5 then 0.0
  else if step_type < 1.5 then v_out
  else if step_type < 2.5 then v_out
  else 0.0

/-! ### Upwind face blends (`build_model`, per-volume loop) -/

/-- Right-face mole-fraction blend of cell `i`: the code special-cases the
last cell `i = N - 1`, where both blend arms use `y[i]` itself. -/
def yR_face (N i : ℕ) (phi_r : ℝ) (y : ℕ → ℝ) : ℝ :=
  if i = N - 1 then phi_r * y i + (1 - phi_r) * y i
  else phi_r * y i + (1 - phi_r) * y (i + 1)

/-- Right-face temperature blend of cell `i`, same structure as `yR_face`. -/
def TR_face (N i : ℕ) (phi_r : ℝ) (T : ℕ → ℝ) : ℝ :=
  if i = N - 1 then phi_r * T i + (1 - phi_r) * T i
  else phi_r * T i + (1 - phi_r) * T (i + 1)

/-! ### Column state and cyclic-steady-state driver (`simulate_css`) -/

/-- The 5N-component state vector of `simulate_css`, split into its five
contiguous N-length blocks: mole fraction, scaled pressure, temperature,
and the two loadings. -/
structure ColState (N : ℕ) where
  y : Fin N → ℝ
  Pb : Fin N → ℝ
  T : Fin N → ℝ
  q0 : Fin N → ℝ
  q1 : Fin N → ℝ

/-- Componentwise difference of two column states (`x - x_start`). -/
def stateSub {N : ℕ} (a b : ColState N) : ColState N :=
  ⟨fun i => a.y i - b.y i, fun i => a.Pb i - b.Pb i, fun i => a.T i - b.T i,
   fun i => a.q0 i - b.q0 i, fun i => a.q1 i - b.q1 i⟩

/-- Euclidean norm of the flattened 5N state vector (`np.linalg.norm`). -/
def stateNorm {N : ℕ} (s : ColState N) : ℝ :=
  Real.sqrt (∑ i, s.y i ^ 2 + ∑ i, s.Pb i ^ 2 + ∑ i, s.T i ^ 2
      + ∑ i, s.q0 i ^ 2 + ∑ i, s.q1 i ^ 2)

/-- Per-cycle relative state change
`err = ||x - x_start|| / (||x_start|| + 1e-8)`. -/
def cssErr {N : ℕ} (xStart xNew : ColState N) : ℝ :=
  stateNorm (stateSub xNew xStart) / (stateNorm xStart + 1e-8)

/-- The Step Integrator interface `simulate_step(x0, type, duration, P_L,
P_H)`, an external collaborator (CVODES) abstracted as a function. -/
def Advance (N : ℕ) : Type :=
  ColState N → ℝ → ℝ → ℝ → ℝ → ColState N

/-- The step durations `design = [20.0, 15.0, 30.0, 40.0]`. -/
def design : List ℝ := [20, 15, 30, 40]

/-- One cycle of `simulate_css`: step types 0..3 with the `design`
durations and pressure bounds 1e4, 1e5, each via the Step Integrator,
threading the state. -/
def cssCycle {N : ℕ} (advance : Advance N) (x : ColState N) : ColState N :=
  let x1 := advance x 0 (design.getD 0 0) 1e4 1e5
  let x2 := advance x1 1 (design.getD 1 0) 1e4 1e5
  let x3 := advance x2 2 (design.getD 2 0) 1e4 1e5
  advance x3 3 (design.getD 3 0) 1e4 1e5

/-- The `for i in range(cycles)` loop of `simulate_css`: run one cycle,
record `err`, break when `err < 1e-3`, and return the error history and
the final state. -/
def cssLoop {N : ℕ} (advance : Advance N) : ℕ → ColState N → List ℝ × ColState N
  | 0, x => ([], x)
  | m + 1, x =>
      let xNew := cssCycle advance x
      let err := cssErr x xNew
      if err < 1e-3 then ([err], xNew)
      else
        let rest := cssLoop advance m xNew
        (err :: rest.1, rest.2)

/-- The initial Column State built by `simulate_css`: mole fraction 0,
scaled pressure `1e4 / P_scale`, temperature 298.15, and loadings from the
numeric isotherm at the feed condition. -/
def simulate_css_init (N : ℕ) : ColState N :=
  let y_init_val : ℝ := 0
  let P_init_val : ℝ := 1e4
  let T_init_val : ℝ := 298.15
  let q_eq := get_isotherm_numeric P_init_val y_init_val T_init_val
  { y := fun _ => y_init_val
    Pb := fun _ => P_init_val / P_scale
    T := fun _ => T_init_val
    q0 := fun _ => q_eq.1
    q1 := fun _ => q_eq.2 }

/-- `VPSA_Robust.simulate_css`: build the initial state, then run the
cycle loop with the given cycle budget. -/
def simulate_css {N : ℕ} (advance : Advance N) (cycles : ℕ) :
    List ℝ × ColState N :=
  cssLoop advance cycles (simulate_css_init N)

/-- The relative state change produced by the `i`-th executed cycle when
no break occurs before it: the error between iterates `i` and `i+1` of the
cycle map. -/
def cssErrSeq {N : ℕ} (advance : Advance N) (x : ColState N) (i : ℕ) : ℝ :=
  cssErr ((cssCycle advance)^[i] x) ((cssCycle advance)^[i + 1] x)

/-! ### Failure flow: `simulate_step` exceptions and the `__main__` sweep -/

/-- The mesh sizes swept by `__main__`: `N_values = [15, 20, 25, 30, 35, 40]`. -/
def N_values : List ℕ := [15, 20, 25, 30, 35, 40]

/-- A fallible Step Integrator: the CVODES call inside `simulate_step`
raises on failure, and `simulate_step` has no handler, so it returns
either a state or an exception. -/
def AdvanceE (N : ℕ) (E : Type) : Type :=
  ColState N → ℝ → ℝ → ℝ → ℝ → Except E (ColState N)

/-- One cycle of `simulate_css` with a fallible integrator: each of the
four `simulate_step` calls propagates an exception unhandled. -/
def cssCycleE {N : ℕ} {E : Type} (advanceE : AdvanceE N E) (x : ColState N) :
    Except E (ColState N) :=
  match advanceE x 0 (design.getD 0 0) 1e4 1e5 with
  | Except.error e => Except.error e
  | Except.ok x1 =>
    match advanceE x1 1 (design.getD 1 0) 1e4 1e5 with
    | Except.error e => Except.error e
    | Except.ok x2 =>
      match advanceE x2 2 (design.getD 2 0) 1e4 1e5 with
      | Except.error e => Except.error e
      | Except.ok x3 => advanceE x3 3 (design.getD 3 0) 1e4 1e5

/-- The `__main__` sweep loop over mesh sizes.  The loop body
(`VPSA_Robust(N=n)` + `simulate_css`) is abstracted as `runOne`; the loop
has no `try`/`except`, so a raised exception aborts the remaining
iterations — exactly the first-error semantics of this fold. -/
def sweepDriver {E R : Type} (runOne : ℕ → Except E R) :
    List ℕ → Except E (List (ℕ × R))
  | [] => Except.ok []
  | n :: rest =>
    match runOne n with
    | Except.error e => Except.error e
    | Except.ok r =>
      match sweepDriver runOne rest with
      | Except.error e => Except.error e
      | Except.ok rs => Except.ok ((n, r) :: rs)

/-! ### Supporting lemmas -/

lemma iso_b0_pos (T : ℝ) : 0 < iso_b0 T :=
  mul_pos (by norm_num [b0_0]) (Real.exp_pos _)

lemma iso_d0_pos (T : ℝ) : 0 < iso_d0 T :=
  mul_pos (by norm_num [d0_0]) (Real.exp_pos _)

lemma iso_b1_pos (T : ℝ) : 0 < iso_b1 T :=
  mul_pos (by norm_num [b0_1]) (Real.exp_pos _)

lemma iso_denom1_ge_one (c0 c1 T : ℝ) (h0 : 0 ≤ c0) (h1 : 0 ≤ c1) :
    1 ≤ iso_denom1 c0 c1 T := by
  have hb := mul_nonneg (iso_b0_pos T).le h0
  have hb' := mul_nonneg (iso_b1_pos T).le h1
  unfold iso_denom1
  linarith

lemma iso_denom2_ge_one (c0 T : ℝ) (h0 : 0 ≤ c0) : 1 ≤ iso_denom2 c0 T := by
  have hd := mul_nonneg (iso_d0_pos T).le h0
  unfold iso_denom2
  linarith

lemma get_isotherm_nonneg (c y T : ℝ) (hc : 0 ≤ c) (hy0 : 0 ≤ y)
    (hy1 : y ≤ 1) :
    0 ≤ (get_isotherm c y T).1 ∧ 0 ≤ (get_isotherm c y T).2 := by
  have hc0 : 0 ≤ c * y := mul_nonneg hc hy0
  have hc1 : 0 ≤ c * (1 - y) := mul_nonneg hc (by linarith)
  have hD1 : (0 : ℝ) ≤ iso_denom1 (c * y) (c * (1 - y)) T :=
    le_trans zero_le_one (iso_denom1_ge_one _ _ _ hc0 hc1)
  have hD2 : (0 : ℝ) ≤ iso_denom2 (c * y) T :=
    le_trans zero_le_one (iso_denom2_ge_one _ _ hc0)
  constructor
  · show 0 ≤ q_sb0 * iso_b0 T * (c * y) / iso_denom1 (c * y) (c * (1 - y)) T
        + q_sd0 * iso_d0 T * (c * y) / iso_denom2 (c * y) T
    exact add_nonneg
      (div_nonneg
        (mul_nonneg (mul_nonneg (by norm_num [q_sb0]) (iso_b0_pos T).le) hc0) hD1)
      (div_nonneg
        (mul_nonneg (mul_nonneg (by norm_num [q_sd0]) (iso_d0_pos T).le) hc0) hD2)
  · show 0 ≤ q_sb1 * iso_b1 T * (c * (1 - y)) /
        iso_denom1 (c * y) (c * (1 - y)) T
    exact div_nonneg
      (mul_nonneg (mul_nonneg (by norm_num [q_sb1]) (iso_b1_pos T).le) hc1) hD1

lemma cssLoop_zero {N : ℕ} (advance : Advance N) (x : ColState N) :
    cssLoop advance 0 x = ([], x) := rfl

lemma cssLoop_succ {N : ℕ} (advance : Advance N) (k : ℕ) (x : ColState N) :
    cssLoop advance (k + 1) x =
      if cssErr x (cssCycle advance x) < 1e-3 then
        ([cssErr x (cssCycle advance x)], cssCycle advance x)
      else
        (cssErr x (cssCycle advance x) ::
            (cssLoop advance k (cssCycle advance x)).1,
          (cssLoop advance k (cssCycle advance x)).2) := rfl

lemma cssErrSeq_zero {N : ℕ} (advance : Advance N) (x : ColState N) :
    cssErrSeq advance x 0 = cssErr x (cssCycle advance x) := rfl

lemma cssErrSeq_shift {N : ℕ} (advance : Advance N) (x : ColState N) (j : ℕ) :
    cssErrSeq advance (cssCycle advance x) j = cssErrSeq advance x (j + 1) := by
  unfold cssErrSeq
  rw [← Function.iterate_succ_apply, ← Function.iterate_succ_apply]

lemma cssLoop_snd_iterate {N : ℕ} (advance : Advance N) :
    ∀ (m : ℕ) (x : ColState N),
      (cssLoop advance m x).2
        = (cssCycle advance)^[(cssLoop advance m x).1.length] x := by
  intro m
  induction m with
  | zero => intro x; rfl
  | succ k ih =>
    intro x
    rw [cssLoop_succ]
    by_cases h : cssErr x (cssCycle advance x) < 1e-3
    · rw [if_pos h]
      rfl
    · rw [if_neg h]
      show (cssLoop advance k (cssCycle advance x)).2
          = (cssCycle advance)^[(cssErr x (cssCycle advance x) ::
              (cssLoop advance k (cssCycle advance x)).1).length] x
      rw [List.length_cons, Function.iterate_succ_apply]
      exact ih (cssCycle advance x)

lemma cssLoop_full_spec {N : ℕ} (advance : Advance N) :
    ∀ (m : ℕ) (x : ColState N), 1 ≤ m →
      (cssLoop advance m x).1
          = (List.range (cssLoop advance m x).1.length).map
              (cssErrSeq advance x) ∧
      1 ≤ (cssLoop advance m x).1.length ∧
      (cssLoop advance m x).1.length ≤ m ∧
      (cssLoop advance m x).2
          = (cssCycle advance)^[(cssLoop advance m x).1.length] x ∧
      (∀ j, j + 1 < (cssLoop advance m x).1.length →
          ¬ cssErrSeq advance x j < 1e-3) ∧
      (cssErrSeq advance x ((cssLoop advance m x).1.length - 1) < 1e-3 ∨
        ((cssLoop advance m x).1.length = m ∧
          ∀ j, j < m → ¬ cssErrSeq advance x j < 1e-3)) := by
  intro m
  induction m with
  | zero => intro x hx; exact absurd hx (by norm_num)
  | succ k ih =>
    intro x _
    by_cases h : cssErr x (cssCycle advance x) < 1e-3
    · have hrun : cssLoop advance (k + 1) x
          = ([cssErr x (cssCycle advance x)], cssCycle advance x) := by
        rw [cssLoop_succ, if_pos h]
      rw [hrun]
      refine ⟨?_, ?_, ?_, ?_, ?_, ?_⟩
      · simp [List.range_succ, cssErrSeq_zero]
      · simp
      · simp
      · rfl
      · intro j hj
        simp at hj
      · exact Or.inl (by simpa [cssErrSeq_zero] using h)
    · rcases Nat.eq_zero_or_pos k with rfl | hk
      · have hrun : cssLoop advance 1 x
            = ([cssErr x (cssCycle advance x)], cssCycle advance x) := by
          rw [cssLoop_succ, if_neg h, cssLoop_zero]
        rw [hrun]
        refine ⟨?_, ?_, ?_, ?_, ?_, ?_⟩
        · simp [List.range_succ, cssErrSeq_zero]
        · simp
        · simp
        · rfl
        · intro j hj
          simp at hj
        · refine Or.inr ⟨by simp, ?_⟩
          intro j hj
          interval_cases j
          simpa [cssErrSeq_zero] using h
      · obtain ⟨IH1, IH2, IH3, IH4, IH5, IH6⟩ := ih (cssCycle advance x) hk
        have hrun : cssLoop advance (k + 1) x
            = (cssErr x (cssCycle advance x) ::
                (cssLoop advance k (cssCycle advance x)).1,
               (cssLoop advance k (cssCycle advance x)).2) := by
          rw [cssLoop_succ, if_neg h]
        rw [hrun]
        have hshift : cssErrSeq advance x ∘ Nat.succ
            = cssErrSeq advance (cssCycle advance x) :=
          funext fun j => (cssErrSeq_shift advance x j).symm
        refine ⟨?_, ?_, ?_, ?_, ?_, ?_⟩
        · show cssErr x (cssCycle advance x) ::
              (cssLoop advance k (cssCycle advance x)).1
            = (List.range ((cssLoop advance k (cssCycle advance x)).1.length
                + 1)).map (cssErrSeq advance x)
          rw [List.range_succ_eq_map, List.map_cons, List.map_map, hshift,
            ← IH1, cssErrSeq_zero]
        · simp
        · simp only [List.length_cons]
          omega
        · show (cssLoop advance k (cssCycle advance x)).2
              = (cssCycle advance)^[(cssLoop advance k
                  (cssCycle advance x)).1.length + 1] x
          rw [Function.iterate_succ_apply]
          exact IH4
        · intro j hj
          simp only [List.length_cons] at hj
          cases j with
          | zero => simpa [cssErrSeq_zero] using h
          | succ j' =>
            rw [← cssErrSeq_shift advance x j']
            exact IH5 j' (by omega)
        · simp only [List.length_cons]
          rcases IH6 with hconv | ⟨hLen, hall⟩
          · left
            have heq : (cssLoop advance k (cssCycle advance x)).1.length - 1 + 1
                = (cssLoop advance k (cssCycle advance x)).1.length := by omega
            have h2 := cssErrSeq_shift advance x
              ((cssLoop advance k (cssCycle advance x)).1.length - 1)
            rw [h2, heq] at hconv
            simpa using hconv
          · right
            refine ⟨by omega, ?_⟩
            intro j hj
            cases j with
            | zero => simpa [cssErrSeq_zero] using h
            | succ j' =>
              rw [← cssErrSeq_shift advance x j']
              exact hall j' (by omega)

lemma getLast_map_range (f : ℕ → ℝ) (K : ℕ) (hK : 1 ≤ K) :
    ((List.range K).map f).getLast? = some (f (K - 1)) := by
  obtain ⟨k, rfl⟩ : ∃ k, K = k + 1 := ⟨K - 1, by omega⟩
  rw [List.range_succ, List.map_append]
  simp

lemma getLast_of_map_range_form (l : List ℝ) (f : ℕ → ℝ)
    (h1 : l = (List.range l.length).map f) (h2 : 1 ≤ l.length) :
    l.getLast? = some (f (l.length - 1)) := by
  conv_lhs => rw [h1]
  exact getLast_map_range f l.length h2

lemma sweepDriver_cons {E R : Type} (runOne : ℕ → Except E R) (n : ℕ)
    (rest : List ℕ) :
    sweepDriver runOne (n :: rest) =
      match runOne n with
      | Except.error e => Except.error e
      | Except.ok r =>
        match sweepDriver runOne rest with
        | Except.error e => Except.error e
        | Except.ok rs => Except.ok ((n, r) :: rs) := rfl

/-- State and integrator instances used by concrete witnesses below. -/
def zeroState : ColState 1 :=
  ⟨fun _ => 0, fun _ => 0, fun _ => 0, fun _ => 0, fun _ => 0⟩

/-- An always-identity Step Integrator used by concrete witnesses. -/
def idAdvance : Advance 1 := fun s _ _ _ _ => s

/-- A fallible Step Integrator used by concrete witnesses: it succeeds on
step types other than 3 and raises on step type 3 (the fourth step of the
cycle). -/
def failAt3 : AdvanceE 1 Unit :=
  fun s t _ _ _ => if t = 3 then Except.error () else Except.ok s

/-! ### Claim theorems -/

/-- Claim C3: for admissible inputs, `get_isotherm` returns exactly the
dual-site Langmuir loadings of the spec, with `c0 = c_total*y`,
`c1 = c_total*(1-y)`, Arrhenius affinities, and the repository's fixed
parameter values. -/
theorem get_isotherm_matches_spec (c y T : ℝ) (hc : 0 ≤ c) (hy0 : 0 ≤ y)
    (hy1 : y ≤ 1) (hT : 0 < T) :
    get_isotherm c y T = isothermSpec c y T ∧
    q_sb0 = 3.09 ∧ b0_0 = 8.65e-7 ∧ dU_b0 = -36641.21 ∧
    q_sd0 = 2.54 ∧ d0_0 = 2.63e-8 ∧ dU_d0 = -35690.66 ∧
    q_sb1 = 5.84 ∧ b0_1 = 2.50e-6 ∧ dU_b1 = -1.58e4 ∧ R_gas = 8.314 :=
  ⟨rfl, rfl, rfl, rfl, rfl, rfl, rfl, rfl, rfl, rfl, rfl⟩

/-- Witness for C3 at the concrete input `(1, 1/2, 300)`. -/
theorem get_isotherm_matches_spec_witness :
    (0 : ℝ) ≤ 1 ∧ (0 : ℝ) ≤ 1 / 2 ∧ (1 : ℝ) / 2 ≤ 1 ∧ (0 : ℝ) < 300 ∧
    get_isotherm 1 (1 / 2) 300 = isothermSpec 1 (1 / 2) 300 :=
  ⟨by norm_num, by norm_num, by norm_num, by norm_num,
    (get_isotherm_matches_spec 1 (1 / 2) 300 (by norm_num) (by norm_num)
      (by norm_num) (by norm_num)).1⟩

/-- Claim C4: the numeric isotherm is the symbolic isotherm evaluated at
`c_total = P / (R_gas * T)` — the two implementations compute the same
mathematical function on the same `(c_total, y, T)` inputs. -/
theorem isotherm_numeric_symbolic_agree (P y T : ℝ) (hP : 0 < P)
    (hy0 : 0 ≤ y) (hy1 : y ≤ 1) (hT : 0 < T) :
    get_isotherm_numeric P y T = get_isotherm (P / (R_gas * T)) y T := rfl

/-- Witness for C4 at the concrete input `(1e4, 1/2, 300)`. -/
theorem isotherm_numeric_symbolic_agree_witness :
    (0 : ℝ) < 1e4 ∧ (0 : ℝ) ≤ 1 / 2 ∧ (1 : ℝ) / 2 ≤ 1 ∧ (0 : ℝ) < 300 ∧
    get_isotherm_numeric 1e4 (1 / 2) 300
      = get_isotherm (1e4 / (R_gas * 300)) (1 / 2) 300 :=
  ⟨by norm_num, by norm_num, by norm_num, by norm_num,
    isotherm_numeric_symbolic_agree 1e4 (1 / 2) 300 (by norm_num) (by norm_num)
      (by norm_num) (by norm_num)⟩

/-- Claim C5: in every control volume the initial state has mole fraction
0, scaled pressure `1e4 / P_scale = 0.1`, temperature 298.15, and loadings
equal to the numeric isotherm at the feed condition — isotherm equilibrium
rather than zero. -/
theorem simulate_css_init_spec (N : ℕ) (i : Fin N) :
    (simulate_css_init N).y i = 0 ∧
    (simulate_css_init N).Pb i = 1e4 / P_scale ∧
    (1e4 : ℝ) / P_scale = 0.1 ∧
    (simulate_css_init N).T i = 298.15 ∧
    (simulate_css_init N).q0 i = (get_isotherm_numeric 1e4 0 298.15).1 ∧
    (simulate_css_init N).q1 i = (get_isotherm_numeric 1e4 0 298.15).2 := by
  refine ⟨rfl, rfl, ?_, rfl, rfl, rfl⟩
  norm_num [P_scale]

/-- Claim C6: each integer step-type code selects exactly one branch of
the threshold chains: boundary pressure (press, `P_high`, blow, evac) and
boundary velocities `(v0, vN)` equal to `(v_in, 0)`, `(1.0, v_out)`,
`(0, v_out)`, `(v_in, 0)` at step types 0, 1, 2, 3 respectively. -/
theorem boundary_branch_selection (P_low P_high duration t v_in v_out : ℝ) :
    P_bound 0 P_low P_high duration t = P_bound_press P_low P_high duration t ∧
    P_bound 1 P_low P_high duration t = P_high ∧
    P_bound 2 P_low P_high duration t = P_bound_blow P_low P_high duration t ∧
    P_bound 3 P_low P_high duration t = P_bound_evac P_low duration t ∧
    v0_sel 0 v_in = v_in ∧ vN_sel 0 v_out = 0 ∧
    v0_sel 1 v_in = 1.0 ∧ vN_sel 1 v_out = v_out ∧
    v0_sel 2 v_in = 0 ∧ vN_sel 2 v_out = v_out ∧
    v0_sel 3 v_in = v_in ∧ vN_sel 3 v_out = 0 := by
  unfold P_bound v0_sel vN_sel
  norm_num

/-- Claim C7: at step type 0 with bounds 1e4, 1e5 and duration 20, the
boundary pressure at τ = 1 (t = 1·20) equals `P_high = 1e5` to within
`exp(-5/(20+1e-3)*1)` relative error, and follows the smoothing formula
`P_high - (P_high - P_low) * exp(-lam * t)`. -/
theorem pressurization_boundary_tau_one :
    |P_bound 0 1e4 1e5 20 (1 * 20) - 1e5|
      ≤ Real.exp (-5 / (20 + 1e-3) * 1) * 1e5 ∧
    P_bound 0 1e4 1e5 20 (1 * 20)
      = 1e5 - (1e5 - 1e4) * Real.exp (-lam 20 * (1 * 20)) := by
  have hsel : P_bound 0 1e4 1e5 20 (1 * 20) = P_bound_press 1e4 1e5 20 (1 * 20) := by
    unfold P_bound
    norm_num
  have hform : P_bound_press 1e4 1e5 20 (1 * 20)
      = 1e5 - (1e5 - 1e4) * Real.exp (-lam 20 * (1 * 20)) := rfl
  refine ⟨?_, hsel.trans hform⟩
  rw [hsel, hform]
  have habs : |(1e5 : ℝ) - (1e5 - 1e4) * Real.exp (-lam 20 * (1 * 20)) - 1e5|
      = (1e5 - 1e4) * Real.exp (-lam 20 * (1 * 20)) := by
    rw [show (1e5 : ℝ) - (1e5 - 1e4) * Real.exp (-lam 20 * (1 * 20)) - 1e5
        = -((1e5 - 1e4) * Real.exp (-lam 20 * (1 * 20))) by ring, abs_neg]
    exact abs_of_nonneg (mul_nonneg (by norm_num) (Real.exp_nonneg _))
  rw [habs]
  have hE : Real.exp (-lam 20 * (1 * 20)) ≤ Real.exp (-5 / (20 + 1e-3) * 1) := by
    apply Real.exp_le_exp.mpr
    unfold lam
    norm_num
  calc (1e5 - 1e4) * Real.exp (-lam 20 * (1 * 20))
      ≤ 1e5 * Real.exp (-5 / (20 + 1e-3) * 1) :=
        mul_le_mul (by norm_num) hE (Real.exp_nonneg _) (by norm_num)
    _ = Real.exp (-5 / (20 + 1e-3) * 1) * 1e5 := mul_comm _ _

/-- Claim C8: both isotherm evaluations are total on their stated domain:
the denominators are at least 1 (no division by zero) and the returned
loadings are non-negative. -/
theorem isotherm_total_nonneg :
    (∀ c0 c1 T : ℝ, 0 ≤ c0 → 0 ≤ c1 → 0 < T →
        1 ≤ iso_denom1 c0 c1 T ∧ 1 ≤ iso_denom2 c0 T) ∧
    (∀ c_total y T : ℝ, 0 ≤ c_total → 0 ≤ y → y ≤ 1 → 0 < T →
        0 ≤ (get_isotherm c_total y T).1 ∧ 0 ≤ (get_isotherm c_total y T).2) ∧
    (∀ P y T : ℝ, 0 ≤ P → 0 ≤ y → y ≤ 1 → 0 < T →
        0 ≤ (get_isotherm_numeric P y T).1 ∧
        0 ≤ (get_isotherm_numeric P y T).2) := by
  refine ⟨fun c0 c1 T h0 h1 _ =>
      ⟨iso_denom1_ge_one c0 c1 T h0 h1, iso_denom2_ge_one c0 T h0⟩,
    fun c y T hc hy0 hy1 _ => get_isotherm_nonneg c y T hc hy0 hy1,
    fun P y T hP hy0 hy1 hT => ?_⟩
  have hc : 0 ≤ P / (R_gas * T) :=
    div_nonneg hP (mul_nonneg (by norm_num [R_gas]) hT.le)
  exact get_isotherm_nonneg (P / (R_gas * T)) y T hc hy0 hy1

/-- Witness for C8 at concrete inputs. -/
theorem isotherm_total_nonneg_witness :
    (1 ≤ iso_denom1 2 3 300 ∧ 1 ≤ iso_denom2 2 300) ∧
    (0 ≤ (get_isotherm 2 (1 / 2) 300).1 ∧ 0 ≤ (get_isotherm 2 (1 / 2) 300).2) ∧
    (0 ≤ (get_isotherm_numeric 1e4 (1 / 2) 300).1 ∧
      0 ≤ (get_isotherm_numeric 1e4 (1 / 2) 300).2) :=
  ⟨isotherm_total_nonneg.1 2 3 300 (by norm_num) (by norm_num) (by norm_num),
   isotherm_total_nonneg.2.1 2 (1 / 2) 300 (by norm_num) (by norm_num)
     (by norm_num) (by norm_num),
   isotherm_total_nonneg.2.2 1e4 (1 / 2) 300 (by norm_num) (by norm_num)
     (by norm_num) (by norm_num)⟩

/-- Claim C10: at the last control volume, both arms of the right-face
blend use the cell's own value, so the outlet face carries the last cell's
mole fraction and temperature for every blend weight. -/
theorem outlet_face_degenerate (N : ℕ) (hN : 0 < N) (phi_r : ℝ)
    (y T : ℕ → ℝ) :
    yR_face N (N - 1) phi_r y = y (N - 1) ∧
    TR_face N (N - 1) phi_r T = T (N - 1) := by
  constructor
  · unfold yR_face
    rw [if_pos rfl]
    ring
  · unfold TR_face
    rw [if_pos rfl]
    ring

/-- Witness for C10 at `N = 3`, blend weight 7. -/
theorem outlet_face_degenerate_witness :
    0 < 3 ∧
    yR_face 3 (3 - 1) 7 (fun n => (n : ℝ)) = ((3 - 1 : ℕ) : ℝ) ∧
    TR_face 3 (3 - 1) 7 (fun n => (n : ℝ)) = ((3 - 1 : ℕ) : ℝ) :=
  ⟨by norm_num,
    outlet_face_degenerate 3 (by norm_num) 7 (fun n => (n : ℝ)) (fun n => (n : ℝ))⟩

/-- Claim C1: one cycle of the driver applies exactly the four configured
steps in order — types 0, 1, 2, 3 with durations 20, 15, 30, 40 and bounds
1e4, 1e5 — each via the Step Integrator, threading each output state into
the next step; and every cycle executed by the driver loop is exactly this
composition. -/
theorem cssCycle_is_four_steps {N : ℕ} (advance : Advance N)
    (x : ColState N) :
    cssCycle advance x =
      advance (advance (advance (advance x 0 20 1e4 1e5) 1 15 1e4 1e5)
        2 30 1e4 1e5) 3 40 1e4 1e5 ∧
    ∀ m : ℕ, (cssLoop advance m x).2
        = (cssCycle advance)^[(cssLoop advance m x).1.length] x :=
  ⟨rfl, fun m => cssLoop_snd_iterate advance m x⟩

/-- Claim C2: for any initial state and cycle budget `m ≥ 1`, the driver
records one relative-change error per executed cycle, stops at the first
cycle whose error drops below 1e-3, otherwise runs exactly `m` cycles with
no error below tolerance, and returns the full error sequence — whose last
entry is the final residual — together with the final state. -/
theorem simulate_css_convergence_spec {N : ℕ} (advance : Advance N)
    (x : ColState N) (m : ℕ) (hm : 1 ≤ m) :
    (cssLoop advance m x).1
        = (List.range (cssLoop advance m x).1.length).map
            (cssErrSeq advance x) ∧
    1 ≤ (cssLoop advance m x).1.length ∧
    (cssLoop advance m x).1.length ≤ m ∧
    (cssLoop advance m x).2
        = (cssCycle advance)^[(cssLoop advance m x).1.length] x ∧
    (∀ j, j + 1 < (cssLoop advance m x).1.length →
        ¬ cssErrSeq advance x j < 1e-3) ∧
    (cssErrSeq advance x ((cssLoop advance m x).1.length - 1) < 1e-3 ∨
      ((cssLoop advance m x).1.length = m ∧
        ∀ j, j < m → ¬ cssErrSeq advance x j < 1e-3)) ∧
    (cssLoop advance m x).1.getLast?
        = some (cssErrSeq advance x ((cssLoop advance m x).1.length - 1)) := by
  obtain ⟨h1, h2, h3, h4, h5, h6⟩ := cssLoop_full_spec advance m x hm
  exact ⟨h1, h2, h3, h4, h5, h6, getLast_of_map_range_form _ _ h1 h2⟩

/-- Witness for C2: the identity integrator on a one-volume column with a
budget of one cycle. -/
theorem simulate_css_convergence_spec_witness :
    1 ≤ 1 ∧
    ((cssLoop idAdvance 1 zeroState).1
        = (List.range (cssLoop idAdvance 1 zeroState).1.length).map
            (cssErrSeq idAdvance zeroState) ∧
    1 ≤ (cssLoop idAdvance 1 zeroState).1.length ∧
    (cssLoop idAdvance 1 zeroState).1.length ≤ 1 ∧
    (cssLoop idAdvance 1 zeroState).2
        = (cssCycle idAdvance)^[(cssLoop idAdvance 1 zeroState).1.length]
            zeroState ∧
    (∀ j, j + 1 < (cssLoop idAdvance 1 zeroState).1.length →
        ¬ cssErrSeq idAdvance zeroState j < 1e-3) ∧
    (cssErrSeq idAdvance zeroState
        ((cssLoop idAdvance 1 zeroState).1.length - 1) < 1e-3 ∨
      ((cssLoop idAdvance 1 zeroState).1.length = 1 ∧
        ∀ j, j < 1 → ¬ cssErrSeq idAdvance zeroState j < 1e-3)) ∧
    (cssLoop idAdvance 1 zeroState).1.getLast?
        = some (cssErrSeq idAdvance zeroState
            ((cssLoop idAdvance 1 zeroState).1.length - 1))) :=
  ⟨le_refl 1, simulate_css_convergence_spec idAdvance zeroState 1 (le_refl 1)⟩

/-- Claim C9 counterexample: the `__main__` sweep has no `try`/`except`,
so with a run that fails at the first mesh size (N = 15) the whole sweep
returns the propagated failure — no results are produced for the
remaining mesh sizes 20..40, refuting "a failure at one mesh size does
not abort the sweep over the remaining mesh sizes". -/
theorem sweep_abort_counterexample :
    sweepDriver (fun n => if n = 15 then Except.error () else Except.ok n)
        N_values
      = Except.error () := rfl

/-- Claim C9 (amended): a failed integration step — whichever of the four
steps of the cycle raises first — is fatal to its run and propagates out
of the cycle unhandled; the Sweep Driver does not catch per-resolution
failures, so the first failing mesh size aborts the sweep over the
remaining mesh sizes. -/
theorem sweep_failure_propagation :
    (∀ (N : ℕ) (E : Type) (advanceE : AdvanceE N E) (x : ColState N) (e : E),
        (advanceE x 0 (design.getD 0 0) 1e4 1e5 = Except.error e →
          cssCycleE advanceE x = Except.error e) ∧
        (∀ x1, advanceE x 0 (design.getD 0 0) 1e4 1e5 = Except.ok x1 →
          advanceE x1 1 (design.getD 1 0) 1e4 1e5 = Except.error e →
          cssCycleE advanceE x = Except.error e) ∧
        (∀ x1 x2, advanceE x 0 (design.getD 0 0) 1e4 1e5 = Except.ok x1 →
          advanceE x1 1 (design.getD 1 0) 1e4 1e5 = Except.ok x2 →
          advanceE x2 2 (design.getD 2 0) 1e4 1e5 = Except.error e →
          cssCycleE advanceE x = Except.error e) ∧
        (∀ x1 x2 x3, advanceE x 0 (design.getD 0 0) 1e4 1e5 = Except.ok x1 →
          advanceE x1 1 (design.getD 1 0) 1e4 1e5 = Except.ok x2 →
          advanceE x2 2 (design.getD 2 0) 1e4 1e5 = Except.ok x3 →
          advanceE x3 3 (design.getD 3 0) 1e4 1e5 = Except.error e →
          cssCycleE advanceE x = Except.error e)) ∧
    (∀ (E R : Type) (runOne : ℕ → Except E R) (pre post : List ℕ)
        (n : ℕ) (e : E),
        (∀ m ∈ pre, ∃ r, runOne m = Except.ok r) →
        runOne n = Except.error e →
        sweepDriver runOne (pre ++ n :: post) = Except.error e) := by
  constructor
  · intro N E advanceE x e
    refine ⟨?_, ?_, ?_, ?_⟩
    · intro h
      unfold cssCycleE
      rw [h]
    · intro x1 h0 h1
      unfold cssCycleE
      simp only [h0, h1]
    · intro x1 x2 h0 h1 h2
      unfold cssCycleE
      simp only [h0, h1, h2]
    · intro x1 x2 x3 h0 h1 h2 h3
      unfold cssCycleE
      simp only [h0, h1, h2, h3]
  · intro E R runOne pre
    induction pre with
    | nil =>
      intro post n e _ hn
      rw [List.nil_append, sweepDriver_cons, hn]
    | cons a pre ih =>
      intro post n e hpre hn
      obtain ⟨r, hr⟩ := hpre a (List.mem_cons_self a pre)
      rw [List.cons_append, sweepDriver_cons, hr,
        ih post n e (fun m hm => hpre m (List.mem_cons_of_mem a hm)) hn]

/-- Witness for C9: an integrator failing at the first step aborts the
cycle, an integrator failing only at the fourth step (type 3) also aborts
the cycle, and a run failing at mesh size 15 aborts the sweep over
20..40. -/
theorem sweep_failure_propagation_witness :
    cssCycleE (fun _ _ _ _ _ => Except.error () : AdvanceE 1 Unit) zeroState
        = Except.error () ∧
    cssCycleE failAt3 zeroState = Except.error () ∧
    sweepDriver (fun n => if n = 20 then Except.error () else Except.ok n)
        ([15] ++ 20 :: [25, 30, 35, 40])
      = Except.error () := by
  have h0 : failAt3 zeroState 0 (design.getD 0 0) 1e4 1e5
      = Except.ok zeroState := by
    unfold failAt3
    rw [if_neg (by norm_num : ¬ (0 : ℝ) = 3)]
  have h1 : failAt3 zeroState 1 (design.getD 1 0) 1e4 1e5
      = Except.ok zeroState := by
    unfold failAt3
    rw [if_neg (by norm_num : ¬ (1 : ℝ) = 3)]
  have h2 : failAt3 zeroState 2 (design.getD 2 0) 1e4 1e5
      = Except.ok zeroState := by
    unfold failAt3
    rw [if_neg (by norm_num : ¬ (2 : ℝ) = 3)]
  have h3 : failAt3 zeroState 3 (design.getD 3 0) 1e4 1e5
      = Except.error () := by
    unfold failAt3
    rw [if_pos rfl]
  exact ⟨(sweep_failure_propagation.1 1 Unit _ zeroState ()).1 rfl,
    (sweep_failure_propagation.1 1 Unit failAt3 zeroState ()).2.2.2
      zeroState zeroState zeroState h0 h1 h2 h3,
    sweep_failure_propagation.2 Unit ℕ _ [15] [25, 30, 35, 40] 20 ()
      (by intro m hm
          simp only [List.mem_singleton] at hm
          exact ⟨15, by subst hm; rfl⟩)
      rfl⟩

end VPSA
